import Mathlib

/-!
Verification of the collada external data-loader plugin (src/src/main.rs).

The program is a small converter: a compatibility gate on the input path,
identity resolution for the output stream, a call to an external collada
parser, and a per-mesh mapping into generic log records written to the
stream. We embed the program as pure Lean functions and a run trace, and
prove the specified properties about them.
-/

namespace ColladaLoader

/-- Reserved protocol exit code meaning "this loader does not support this
input"; the constant comes from the rerun SDK, where its value is 66. -/
def EXTERNAL_DATA_LOADER_INCOMPATIBLE_EXIT_CODE : Nat := 66

/-- Exit code of a Rust process whose main returns an error: the generic
failure status 1. -/
def GENERIC_FAILURE_EXIT_CODE : Nat := 1

/-- The input path, reduced to what the program inspects: its final
component (Rust Path.file_name), if any. -/
structure FilePath where
  fileName : Option String
deriving DecidableEq, Repr

/-- The parsed invocation parameters (struct Args in main.rs). The field
entity_path_pfx models the entity_path_prefix option. The static, timeless,
time and sequence flags are ignored by the program and omitted here. -/
structure Args where
  filepath : FilePath
  application_id : Option String
  opened_application_id : Option String
  recording_id : Option String
  opened_recording_id : Option String
  entity_path_pfx : Option String
deriving DecidableEq, Repr

/-- A 3D point or vector component triple; numeric values are modelled as
rationals. -/
abbrev Vec3 := ℚ × ℚ × ℚ

/-- A mesh as delivered by the mesh_loader collaborator: vertex positions
and a sequence of normal entries. The entry type is modelled as a list of
components, since the program tests the first entry for emptiness. -/
structure Mesh where
  vertices : List Vec3
  normals : List (List ℚ)
deriving DecidableEq, Repr

/-- The color block of a material: an optional diffuse RGBA quadruple. -/
structure Color where
  diffuse : Option (ℚ × ℚ × ℚ × ℚ)
deriving DecidableEq, Repr

/-- A material as delivered by the mesh_loader collaborator. -/
structure Material where
  color : Color
deriving DecidableEq, Repr

/-- The scene graph returned by a successful parse: parallel sequences of
meshes and materials, positionally paired. -/
structure Scene where
  meshes : List Mesh
  materials : List Material
deriving DecidableEq, Repr

/-- A non-premultiplied RGBA color packed into a 32-bit value, as in the
rerun SDK type Rgba32. -/
structure Rgba32 where
  rgba : Nat
deriving DecidableEq, Repr

/-- Rgba32.from_unmultiplied_rgba: pack four 8-bit channels, red in the
highest byte. -/
def Rgba32.from_unmultiplied_rgba (r g b a : Nat) : Rgba32 :=
  ⟨(((r % 256) * 256 + g % 256) * 256 + b % 256) * 256 + a % 256⟩

/-- The red channel of a packed Rgba32. -/
def Rgba32.r (c : Rgba32) : Nat := c.rgba / 2 ^ 24 % 256

/-- The green channel of a packed Rgba32. -/
def Rgba32.g (c : Rgba32) : Nat := c.rgba / 2 ^ 16 % 256

/-- The blue channel of a packed Rgba32. -/
def Rgba32.b (c : Rgba32) : Nat := c.rgba / 2 ^ 8 % 256

/-- The alpha channel of a packed Rgba32. -/
def Rgba32.a (c : Rgba32) : Nat := c.rgba % 256

/-- The Rust saturating numeric cast `x as u8` applied to the diffuse
components: clamp into the range 0..255 and truncate toward zero. -/
def f32_as_u8 (x : ℚ) : Nat :=
  if x ≤ 0 then 0
  else if 255 ≤ x then 255
  else x.floor.toNat

/-- The record logged per mesh (rerun Mesh3D as used by the program):
vertex positions, optional vertex normals, optional albedo factor. -/
structure Mesh3D where
  vertex_positions : List Vec3
  vertex_normals : Option (List (List ℚ))
  albedo_factor : Option Rgba32
deriving DecidableEq, Repr

/-- Mesh3D.new: a record carrying the given vertex positions and nothing
else. -/
def Mesh3D.new (vertices : List Vec3) : Mesh3D :=
  ⟨vertices, none, none⟩

/-- Mesh3D.with_vertex_normals: attach vertex normals. -/
def Mesh3D.with_vertex_normals (m : Mesh3D) (ns : List (List ℚ)) : Mesh3D :=
  { m with vertex_normals := some ns }

/-- Mesh3D.with_albedo_factor: attach an albedo color. -/
def Mesh3D.with_albedo_factor (m : Mesh3D) (c : Rgba32) : Mesh3D :=
  { m with albedo_factor := some c }

/-- Rust Path.extension restricted to a file name: the portion of the name
after the final dot, or none when there is no dot, when the name is the
special component consisting of two dots, or when the only text before the
final dot is empty (a name such as .dae starting with its only dot). -/
def rust_file_extension (f : List Char) : Option (List Char) :=
  if f = ['.', '.'] then none
  else
    let revAfter := f.reverse.takeWhile (fun c => c ≠ '.')
    if revAfter.length = f.length then none
    else if f.length = revAfter.length + 1 then none
    else some revAfter.reverse

/-- The extension function of main.rs: Path.extension, defaulted to the
empty string when absent, ASCII-lowercased. -/
def extension (p : FilePath) : String :=
  let ext : List Char :=
    match p.fileName with
    | none => []
    | some f => (rust_file_extension f.data).getD []
  String.mk (ext.map Char.toLower)

/-- The stream identity computed in main.rs before opening the stream. -/
structure ResolvedIdentity where
  stream_name : String
  stream_recording_id : Option String
deriving DecidableEq, Repr

/-- Identity resolution as performed in main.rs lines 103-119: the stream
name is opened_application_id, else application_id, else the default
label; the recording id is opened_recording_id, else recording_id, else
absent. -/
def resolveIdentity (args : Args) : ResolvedIdentity :=
  { stream_name :=
      (args.opened_application_id.getD
        (args.application_id.getD "external_data_loader"))
  , stream_recording_id :=
      match args.opened_recording_id with
      | some r => some r
      | none => args.recording_id }

/-- Modelled from the spec: rerun EntityPath.from_file_path, used when no
entity path option is given. The rerun SDK is external to this repository;
the spec requires only a path derived deterministically from the input
file path, so we model it as a function of the FilePath value. -/
def entity_path_from_file_path (p : FilePath) : String :=
  "/" ++ p.fileName.getD ""

/-- The entity path every record of a run is logged under (main.rs lines
81-85): the entity path option verbatim when given, else the path derived
from the input file path. -/
def targetEntityPath (args : Args) : String :=
  match args.entity_path_pfx with
  | some p => p
  | none => entity_path_from_file_path args.filepath

/-- The body of the per-mesh loop of load_mesh (main.rs lines 65-85):
build the record from one mesh and its paired material, and choose the
entity path it is logged under. -/
def mapMeshMat (args : Args) (mesh : Mesh) (mat : Material) : String × Mesh3D :=
  let mesh3d := Mesh3D.new mesh.vertices
  let mesh3d :=
    match mesh.normals with
    | [] => mesh3d
    | n0 :: _ =>
        if n0.isEmpty then mesh3d
        else mesh3d.with_vertex_normals mesh.normals
  let mesh3d :=
    match mat.color.diffuse with
    | some d =>
        mesh3d.with_albedo_factor
          (Rgba32.from_unmultiplied_rgba
            (f32_as_u8 d.1) (f32_as_u8 d.2.1) (f32_as_u8 d.2.2.1) (f32_as_u8 d.2.2.2))
    | none => mesh3d
  (targetEntityPath args, mesh3d)

/-- load_mesh (main.rs lines 61-89) after a successful parse: iterate over
the zipped mesh and material sequences and produce the logged records in
order. -/
def load_mesh (args : Args) (scene : Scene) : List (String × Mesh3D) :=
  (scene.meshes.zip scene.materials).map (fun mm => mapMeshMat args mm.1 mm.2)

/-- An observable step of a run, in program order. -/
inductive Event where
  | resolvedIdentity (id : ResolvedIdentity)
  | openedStream
  | parseAttempted
  | wrote (path : String) (record : Mesh3D)
  | exited (code : Nat) (diagnostic : Option String)
deriving DecidableEq, Repr

/-- The run of main (main.rs lines 91-128) as a trace of events. Inputs:
whether the filesystem reports the given path as a regular file, the
parsed arguments, and the result the external collada parser would return
for the file. The gate runs first; on an incompatible input the process
exits with the reserved code at once. Otherwise the identity is resolved,
the stream is opened on standard output, the parse is attempted, and
either the error propagates to a generic failure exit or every record is
written in order before the successful exit. -/
def mainTrace (is_file : Bool) (args : Args) (parseResult : Except String Scene) :
    List Event :=
  if !is_file || extension args.filepath != "dae" then
    [Event.exited EXTERNAL_DATA_LOADER_INCOMPATIBLE_EXIT_CODE none]
  else
    Event.resolvedIdentity (resolveIdentity args) ::
    Event.openedStream ::
    Event.parseAttempted ::
    match parseResult with
    | Except.error e => [Event.exited GENERIC_FAILURE_EXIT_CODE (some e)]
    | Except.ok scene =>
        (load_mesh args scene).map (fun pr => Event.wrote pr.1 pr.2)
          ++ [Event.exited 0 none]

/-- Classify an event as work performed by the run: identity resolution,
stream opening, a parse attempt, or a record write. A process exit is not
work. -/
def isSideEffect : Event → Bool
  | Event.exited _ _ => false
  | _ => true

/-! Concrete values used by the witness theorems. -/

/-- A compatible invocation: an existing model.dae, no optional options. -/
def exArgs : Args :=
  { filepath := ⟨some "model.dae"⟩
  , application_id := none
  , opened_application_id := none
  , recording_id := none
  , opened_recording_id := none
  , entity_path_pfx := none }

/-- An invocation with a wrong-extension input file model.obj. -/
def exArgsObj : Args :=
  { exArgs with filepath := ⟨some "model.obj"⟩ }

/-- An invocation whose input file name is exactly .dae: a leading dot and
the supported extension, hence no extension at all in the Rust sense. -/
def exArgsDotDae : Args :=
  { exArgs with filepath := ⟨some ".dae"⟩ }

/-- A two-element scene: a triangle with one normal entry and a diffuse
material, then an empty mesh with no normals and no diffuse color. -/
def exScene : Scene :=
  { meshes :=
      [ ⟨[(0, 0, 0), (1, 0, 0), (0, 1, 0)], [[0, 0, 1]]⟩
      , ⟨[], []⟩ ]
  , materials :=
      [ ⟨⟨some (12, 34, 56, 78)⟩⟩
      , ⟨⟨none⟩⟩ ] }

/-! Helper lemmas shared by the claim theorems. -/

/-- The entity path chosen for any mesh is the single per-run target. -/
theorem mapMeshMat_fst (args : Args) (mesh : Mesh) (mat : Material) :
    (mapMeshMat args mesh mat).1 = targetEntityPath args := by
  unfold mapMeshMat
  rcases mesh.normals with _ | ⟨n0, ns⟩ <;>
    rcases mat.color.diffuse with _ | d <;>
    simp

/-- The record built for a mesh carries exactly its vertices. -/
theorem mapMeshMat_vertex_positions (args : Args) (mesh : Mesh) (mat : Material) :
    (mapMeshMat args mesh mat).2.vertex_positions = mesh.vertices := by
  unfold mapMeshMat
  rcases mesh.normals with _ | ⟨n0, ns⟩ <;>
    rcases mat.color.diffuse with _ | d <;>
    simp [Mesh3D.new, Mesh3D.with_vertex_normals, Mesh3D.with_albedo_factor] <;>
    split <;> rfl

/-- Index access into a zipped-and-mapped pair of lists. -/
theorem zip_map_get? {α β γ : Type} (f : α → β → γ) :
    ∀ (xs : List α) (ys : List β) (i : Nat),
      ((xs.zip ys).map fun mm => f mm.1 mm.2).get? i
        = (xs.get? i).bind fun x => (ys.get? i).map fun y => f x y := by
  intro xs
  induction xs with
  | nil => intro ys i; simp
  | cons x xs ih =>
    intro ys i
    cases ys with
    | nil => simp
    | cons y ys =>
      cases i with
      | zero => simp
      | succ i => simpa using ih ys i

/-- Index access into the record list produced by load_mesh. -/
theorem load_mesh_get? (args : Args) (scene : Scene) (i : Nat) :
    (load_mesh args scene).get? i
      = (scene.meshes.get? i).bind fun mesh =>
          (scene.materials.get? i).map fun mat => mapMeshMat args mesh mat := by
  unfold load_mesh
  exact zip_map_get? (mapMeshMat args) scene.meshes scene.materials i

/-- load_mesh emits one record per zipped pair. -/
theorem load_mesh_length (args : Args) (scene : Scene) :
    (load_mesh args scene).length = min scene.meshes.length scene.materials.length := by
  unfold load_mesh
  simp [List.length_zip]

/-- The compatibility condition of main, as the Bool the code computes,
fails exactly on declined inputs. -/
theorem gate_declines {is_file : Bool} {args : Args}
    (h : ¬(is_file = true ∧ extension args.filepath = "dae")) :
    (!is_file || extension args.filepath != "dae") = true := by
  cases is_file with
  | false => rfl
  | true =>
    have hne : extension args.filepath ≠ "dae" := fun he => h ⟨rfl, he⟩
    simp [bne_iff_ne, hne]

/-- The compatibility condition of main succeeds exactly on accepted
inputs. -/
theorem gate_accepts {is_file : Bool} {args : Args}
    (hf : is_file = true) (he : extension args.filepath = "dae") :
    (!is_file || extension args.filepath != "dae") = false := by
  subst hf
  simp [he]

/-- A declined run is the single reserved-code exit. -/
theorem mainTrace_incompatible {is_file : Bool} {args : Args}
    (pr : Except String Scene)
    (h : ¬(is_file = true ∧ extension args.filepath = "dae")) :
    mainTrace is_file args pr
      = [Event.exited EXTERNAL_DATA_LOADER_INCOMPATIBLE_EXIT_CODE none] := by
  unfold mainTrace
  rw [gate_declines h]
  rfl

/-- An accepted run resolves identity, opens the stream, attempts the
parse, and then either fails generically or writes all records. -/
theorem mainTrace_compatible {is_file : Bool} {args : Args}
    (pr : Except String Scene)
    (hf : is_file = true) (he : extension args.filepath = "dae") :
    mainTrace is_file args pr
      = Event.resolvedIdentity (resolveIdentity args) ::
        Event.openedStream ::
        Event.parseAttempted ::
        (match pr with
         | Except.error e => [Event.exited GENERIC_FAILURE_EXIT_CODE (some e)]
         | Except.ok scene =>
             (load_mesh args scene).map (fun pr => Event.wrote pr.1 pr.2)
               ++ [Event.exited 0 none]) := by
  unfold mainTrace
  rw [gate_accepts hf he]
  rfl

/-- The saturating cast always lands in the 8-bit channel range. -/
theorem f32_as_u8_le (x : ℚ) : f32_as_u8 x ≤ 255 := by
  unfold f32_as_u8
  split
  · exact Nat.zero_le _
  · split
    · exact Nat.le_refl _
    · next h1 h2 =>
        have hlt : x < 255 := lt_of_not_le h2
        have hfl : ¬ ((256 : ℤ) ≤ x.floor) := by
          intro hge
          have hc : ((256 : ℤ) : ℚ) ≤ x := Rat.le_floor.mp hge
          push_cast at hc
          linarith
        have hle : x.floor ≤ (255 : ℤ) := by omega
        exact Int.toNat_le.mpr hle

/-! The claim theorems. -/

/-- Claim C1: the run is the single reserved-incompatibility exit exactly
when the compatibility gate declines the path, i.e. when the path is not a
regular file or its lowercased extension differs from dae; whenever either
condition fails the process terminates with the reserved code and no
other. -/
theorem gate_accepts_iff_compatible (is_file : Bool) (args : Args)
    (pr : Except String Scene) :
    mainTrace is_file args pr
        = [Event.exited EXTERNAL_DATA_LOADER_INCOMPATIBLE_EXIT_CODE none]
      ↔ ¬(is_file = true ∧ extension args.filepath = "dae") := by
  constructor
  · intro htr hc
    rcases hc with ⟨hf, he⟩
    rw [mainTrace_compatible pr hf he] at htr
    simp [EXTERNAL_DATA_LOADER_INCOMPATIBLE_EXIT_CODE] at htr
  · exact mainTrace_incompatible pr

/-- Claim C2: on a scene whose mesh and material sequences have equal
length, the conversion emits exactly one record per mesh, in order, and
the geometry of the record at any index equals the vertex sequence of the
mesh at that index; an empty vertex list still yields a record. -/
theorem mapper_preserves_geometry (args : Args) (scene : Scene)
    (h : scene.meshes.length = scene.materials.length) (i : Nat) :
    (load_mesh args scene).length = scene.meshes.length ∧
    ((load_mesh args scene).get? i).map (fun r => r.2.vertex_positions)
      = (scene.meshes.get? i).map Mesh.vertices := by
  constructor
  · rw [load_mesh_length, h, Nat.min_self]
  · rw [load_mesh_get?]
    rcases hm : scene.meshes.get? i with _ | mesh
    · simp
    · have hi : i < scene.materials.length := by
        rw [← h]
        exact List.get?_eq_some.mp hm |>.choose
      rcases hmat : scene.materials.get? i with _ | mat
      · exact absurd (List.get?_eq_none.mp hmat) (Nat.not_le.mpr hi)
      · simp [mapMeshMat_vertex_positions]

/-- Claim C2 witness: a concrete scene of two meshes and two materials,
checked at index 1, the mesh with the empty vertex list. -/
theorem mapper_preserves_geometry_witness :
    exScene.meshes.length = exScene.materials.length ∧
    ((load_mesh exArgs exScene).length = exScene.meshes.length ∧
     ((load_mesh exArgs exScene).get? 1).map (fun r => r.2.vertex_positions)
       = (exScene.meshes.get? 1).map Mesh.vertices) :=
  ⟨by decide, mapper_preserves_geometry exArgs exScene (by decide) 1⟩

/-- Claim C3: the stream name is opened_application_id when given, else
application_id when given, else the fixed default label; the recording id
is opened_recording_id when given, else recording_id, else absent. Each
right-hand side mentions only its own pair of fields, so the two
resolutions are independent of each other and of everything else. -/
theorem identity_resolution_precedence (args : Args) :
    (resolveIdentity args).stream_name
        = (match args.opened_application_id with
           | some a => a
           | none =>
             match args.application_id with
             | some a => a
             | none => "external_data_loader") ∧
    (resolveIdentity args).stream_recording_id
        = (match args.opened_recording_id with
           | some r => some r
           | none => args.recording_id) := by
  rcases args with ⟨fp, aid, oaid, rid, orid, epp⟩
  refine ⟨?_, ?_⟩ <;>
    cases oaid <;> cases aid <;> cases orid <;> cases rid <;> rfl

/-- Claim C4: a record carries vertex normals exactly when the mesh
normals sequence is non-empty with a non-empty first entry, and the
carried normals are the full sequence unchanged. -/
theorem normals_round_trip (args : Args) (mesh : Mesh) (mat : Material) :
    (mapMeshMat args mesh mat).2.vertex_normals
      = if mesh.normals ≠ [] ∧ mesh.normals.headI ≠ [] then some mesh.normals
        else none := by
  unfold mapMeshMat
  rcases hn : mesh.normals with _ | ⟨n0, ns⟩ <;>
    rcases hd : mat.color.diffuse with _ | d <;>
    simp [Mesh3D.new, Mesh3D.with_vertex_normals, Mesh3D.with_albedo_factor] <;>
    rcases eq_or_ne n0 [] with h0 | h0 <;>
    simp [h0]

/-- Claim C5: a record carries an albedo color exactly when the paired
material has a diffuse field; each diffuse component is clamped and
truncated into an unsigned 8-bit channel and the four are packed as one
non-premultiplied RGBA value, so components 12, 34, 56, 78 give back
channels 12, 34, 56 and 78. -/
theorem albedo_mapping (args : Args) (mesh : Mesh) (mat : Material) :
    (mapMeshMat args mesh mat).2.albedo_factor
        = mat.color.diffuse.map (fun d =>
            Rgba32.from_unmultiplied_rgba
              (f32_as_u8 d.1) (f32_as_u8 d.2.1) (f32_as_u8 d.2.2.1) (f32_as_u8 d.2.2.2)) ∧
    (∀ x : ℚ, f32_as_u8 x ≤ 255) ∧
    (Rgba32.from_unmultiplied_rgba 12 34 56 78).r = 12 ∧
    (Rgba32.from_unmultiplied_rgba 12 34 56 78).g = 34 ∧
    (Rgba32.from_unmultiplied_rgba 12 34 56 78).b = 56 ∧
    (Rgba32.from_unmultiplied_rgba 12 34 56 78).a = 78 := by
  refine ⟨?_, f32_as_u8_le, by decide, by decide, by decide, by decide⟩
  unfold mapMeshMat
  rcases hn : mesh.normals with _ | ⟨n0, ns⟩ <;>
    rcases hd : mat.color.diffuse with _ | d <;>
    simp [Mesh3D.new, Mesh3D.with_vertex_normals, Mesh3D.with_albedo_factor] <;>
    rcases eq_or_ne n0 [] with h0 | h0 <;>
    simp [h0]

/-- Claim C6: every record of a run is logged under the one per-run entity
path: the entity path option verbatim when given, else the path derived
from the input file path. -/
theorem single_entity_path_per_run (args : Args) (scene : Scene) :
    (load_mesh args scene).map Prod.fst
      = List.replicate (load_mesh args scene).length
          (match args.entity_path_pfx with
           | some p => p
           | none => entity_path_from_file_path args.filepath) := by
  show _ = List.replicate _ (targetEntityPath args)
  unfold load_mesh
  generalize scene.meshes.zip scene.materials = l
  induction l with
  | nil => rfl
  | cons mm l ih =>
    simp only [List.map_cons, List.length_cons, List.replicate_succ,
      mapMeshMat_fst, ih]

/-- Claim C7: on an incompatible input the run is the immediate reserved
exit alone: no identity resolution, no stream opening, no parse attempt
and no record write appears in the trace. -/
theorem incompatible_input_no_side_effects (is_file : Bool) (args : Args)
    (pr : Except String Scene)
    (h : ¬(is_file = true ∧ extension args.filepath = "dae")) :
    mainTrace is_file args pr
        = [Event.exited EXTERNAL_DATA_LOADER_INCOMPATIBLE_EXIT_CODE none] ∧
    ((mainTrace is_file args pr).all fun e => !(isSideEffect e)) = true := by
  have ht := mainTrace_incompatible pr h
  exact ⟨ht, by rw [ht]; rfl⟩

/-- Claim C7 witness: an existing file with the wrong extension
model.obj. -/
theorem incompatible_input_no_side_effects_witness :
    ¬((true : Bool) = true ∧ extension exArgsObj.filepath = "dae") ∧
    (mainTrace true exArgsObj (Except.ok exScene)
        = [Event.exited EXTERNAL_DATA_LOADER_INCOMPATIBLE_EXIT_CODE none] ∧
     ((mainTrace true exArgsObj (Except.ok exScene)).all
        fun e => !(isSideEffect e)) = true) :=
  ⟨by decide, incompatible_input_no_side_effects true exArgsObj (Except.ok exScene) (by decide)⟩

/-- Claim C8: on a compatible input whose parse fails, the run resolves
identity, opens the stream, attempts the parse, and exits with the
generic failure status carrying the error untouched; no record is written
and the status differs from the reserved incompatibility code. -/
theorem parse_failure_fatal (args : Args) (e : String)
    (h : extension args.filepath = "dae") :
    mainTrace true args (Except.error e)
        = [Event.resolvedIdentity (resolveIdentity args), Event.openedStream,
           Event.parseAttempted,
           Event.exited GENERIC_FAILURE_EXIT_CODE (some e)] ∧
    GENERIC_FAILURE_EXIT_CODE ≠ EXTERNAL_DATA_LOADER_INCOMPATIBLE_EXIT_CODE := by
  exact ⟨mainTrace_compatible (Except.error e) rfl h, by decide⟩

/-- Claim C8 witness: the compatible input model.dae with a failing
parse. -/
theorem parse_failure_fatal_witness :
    extension exArgs.filepath = "dae" ∧
    (mainTrace true exArgs (Except.error "malformed collada document")
        = [Event.resolvedIdentity (resolveIdentity exArgs), Event.openedStream,
           Event.parseAttempted,
           Event.exited GENERIC_FAILURE_EXIT_CODE (some "malformed collada document")] ∧
     GENERIC_FAILURE_EXIT_CODE ≠ EXTERNAL_DATA_LOADER_INCOMPATIBLE_EXIT_CODE) :=
  ⟨by decide, parse_failure_fatal exArgs "malformed collada document" (by decide)⟩

/-- Claim C9: whatever the two sequence lengths, exactly one record per
zipped pair is emitted — min of the two lengths — and the record at index
i, when it exists, is built from the i-th mesh and the i-th material. -/
theorem pairing_stops_at_shorter (args : Args) (scene : Scene) (i : Nat) :
    (load_mesh args scene).length
        = min scene.meshes.length scene.materials.length ∧
    (load_mesh args scene).get? i
        = (scene.meshes.get? i).bind fun mesh =>
            (scene.materials.get? i).map fun mat => mapMeshMat args mesh mat :=
  ⟨load_mesh_length args scene, load_mesh_get? args scene i⟩

/-- Claim C10: when the final path component has no extension in the Rust
sense — including the name .dae, a bare leading dot before the supported
extension — the gate computes the empty string and the run is the reserved
incompatibility exit even for an existing regular file. -/
theorem no_extension_means_incompatible (args : Args) (pr : Except String Scene)
    (f : String)
    (h1 : args.filepath.fileName = some f)
    (h2 : rust_file_extension f.data = none) :
    extension args.filepath = "" ∧
    mainTrace true args pr
      = [Event.exited EXTERNAL_DATA_LOADER_INCOMPATIBLE_EXIT_CODE none] := by
  have he : extension args.filepath = "" := by
    unfold extension
    rw [h1]
    show String.mk (((rust_file_extension f.data).getD []).map Char.toLower) = ""
    rw [h2]
    rfl
  refine ⟨he, mainTrace_incompatible pr ?_⟩
  rintro ⟨-, hdae⟩
  rw [he] at hdae
  exact absurd hdae (by decide)

/-- Claim C10 witness: the existing regular file named exactly .dae is
declined. -/
theorem no_extension_means_incompatible_witness :
    exArgsDotDae.filepath.fileName = some ".dae" ∧
    rust_file_extension ".dae".data = none ∧
    (extension exArgsDotDae.filepath = "" ∧
     mainTrace true exArgsDotDae (Except.ok exScene)
       = [Event.exited EXTERNAL_DATA_LOADER_INCOMPATIBLE_EXIT_CODE none]) :=
  ⟨by decide, by decide,
   no_extension_means_incompatible exArgsDotDae (Except.ok exScene) ".dae"
     (by decide) (by decide)⟩

end ColladaLoader
